import Mathlib

/-!
Shallow embedding of the ForegroundWatcher program (src/src/main.rs).

The program is a single polling loop: each iteration queries the platform
for the current foreground window handle (`GetForegroundWindow`), compares
it with the handle seen on the previous iteration (`last_hwnd`), and on a
change resolves the owning process id (`GetWindowThreadProcessId`), refreshes
the process snapshot for exactly that pid, looks the pid up, resolves the
window title (`GetWindowTextLengthW` / `GetWindowTextW`), and emits one
formatted log line; every iteration ends with a 10 ms sleep.

The platform calls are external: each poll iteration is modelled by a
`PollInput` record carrying the values the platform would return on that
iteration (foreground handle, reported owning pid, the snapshot's answer for
the pid after the targeted refresh, the reported title length, the number of
characters the text call copies, the post-call buffer contents, and the local
wall-clock time).  The observable effects of one iteration (snapshot refresh
calls, snapshot lookups, emitted log lines, sleeps) are recorded as a list of
`Action`s, in program order.
-/

namespace ForegroundWatcher

/-- Local wall-clock time, as sampled by `Local::now()`. -/
structure LocalTime where
  year : Nat
  month : Nat
  day : Nat
  hour : Nat
  minute : Nat
  second : Nat
deriving DecidableEq

/-- Zero-pad a number to two digits, as chrono does for `%m %d %H %M %S`. -/
def pad2 (n : Nat) : String :=
  if n < 10 then "0" ++ toString n else toString n

/-- Zero-pad a number to four digits, as chrono does for `%Y` on common years. -/
def pad4 (n : Nat) : String :=
  if n < 10 then "000" ++ toString n
  else if n < 100 then "00" ++ toString n
  else if n < 1000 then "0" ++ toString n
  else toString n

/-- `Local::now().format("%Y-%m-%d %H:%M:%S")` (main.rs lines 88 and 95). -/
def formatTimestamp (t : LocalTime) : String :=
  pad4 t.year ++ "-" ++ pad2 t.month ++ "-" ++ pad2 t.day ++ " " ++
    pad2 t.hour ++ ":" ++ pad2 t.minute ++ ":" ++ pad2 t.second

/-- The record `system.process(pid)` returns: `process.exe()` is an optional
executable path (main.rs lines 84-86). Paths are modelled as strings
(`to_string_lossy` is the identity on the valid unicode paths modelled here). -/
structure ProcessRecord where
  exe : Option String
deriving DecidableEq

/-- One UTF-16 code unit decoded per `String::from_utf16_lossy`: BMP scalars
pass through, well-formed surrogate pairs combine, and lone or ill-formed
surrogates become U+FFFD. -/
def utf16Decode : List Nat → List Char
  | [] => []
  | [u] =>
    if u < 0xD800 ∨ 0xDFFF < u then [Char.ofNat u] else [Char.ofNat 0xFFFD]
  | u :: v :: rest =>
    if u < 0xD800 ∨ 0xDFFF < u then
      Char.ofNat u :: utf16Decode (v :: rest)
    else if u ≤ 0xDBFF ∧ 0xDC00 ≤ v ∧ v ≤ 0xDFFF then
      Char.ofNat (0x10000 + (u - 0xD800) * 0x400 + (v - 0xDC00)) :: utf16Decode rest
    else
      Char.ofNat 0xFFFD :: utf16Decode (v :: rest)

/-- `.trim_end_matches('\u{0}')`: drop trailing NUL characters. -/
def trimEndZeros (l : List Char) : List Char :=
  (l.reverse.dropWhile (fun c => c = Char.ofNat 0)).reverse

/-- `get_window_text` (main.rs lines 33-51).  The platform inputs are the
value returned by `GetWindowTextLengthW` and, for the subsequent
`GetWindowTextW` call on the freshly zeroed buffer of `length` code units,
the returned copied-count together with the buffer contents after the call.
`GetWindowTextLengthW` returns a nonnegative count, so `lenReport : Nat`. -/
def get_window_text (lenReport : Nat) (copied : Nat) (buf : List Nat) : Option String :=
  let length := lenReport + 1
  if length = 0 then
    none
  else if copied = 0 then
    none
  else
    some (String.mk (trimEndZeros (utf16Decode (buf.take copied))))

/-- `get_process_id` (main.rs lines 54-64): `pid` starts at 0, the platform
writes the owning pid (`pidReport`); a zero pid means no owning process. -/
def get_process_id (pidReport : Nat) : Option Nat :=
  let pid := pidReport
  if pid ≠ 0 then some pid else none

/-- The platform-returned values for one iteration of the polling loop. -/
structure PollInput where
  /-- `GetForegroundWindow()`: the current foreground handle, if any. -/
  foreground : Option Nat
  /-- what `GetWindowThreadProcessId` writes into `pid` (0 = unresolvable). -/
  pidReport : Nat
  /-- `system.process(pid)` after the targeted refresh: none if the process
  is gone from the snapshot. -/
  proc : Option ProcessRecord
  /-- `GetWindowTextLengthW(hwnd)` for this handle at title-resolution time. -/
  titleLen : Nat
  /-- the copied-count returned by `GetWindowTextW`. -/
  titleCopied : Nat
  /-- the buffer contents after the `GetWindowTextW` call. -/
  titleBuf : List Nat
  /-- `Local::now()` at event-formatting time. -/
  now : LocalTime
deriving DecidableEq

/-- An observable effect of one loop iteration, in program order. -/
inductive Action where
  /-- `system.refresh_processes(ProcessesToUpdate::Some(pids), removeDead)`. -/
  | refresh (pids : List Nat) (removeDead : Bool)
  /-- `system.process(pid)` snapshot lookup. -/
  | lookup (pid : Nat)
  /-- `info!(...)`: one formatted event line handed to the sink. -/
  | emit (line : String)
  /-- `sleep(Duration::from_millis(ms))`. -/
  | sleep (ms : Nat)
deriving DecidableEq

/-- The live-event line (main.rs lines 89-92). -/
def liveEvent (timestamp : String) (pid : Nat) (title : String) (path : String) : String :=
  timestamp ++ " | 进程ID: " ++ toString pid ++ " | 窗口标题: " ++ title ++
    " | 执行路径: " ++ path

/-- The dead-process line (main.rs lines 96-99). -/
def deadEvent (timestamp : String) (pid : Nat) : String :=
  timestamp ++ " | 进程ID: " ++ toString pid ++ " 不存在或已结束"

/-- The body of one loop iteration before the trailing sleep
(main.rs lines 76-103): returns the updated `last_hwnd` and the actions
performed. -/
def pollBody (last_hwnd : Option Nat) (inp : PollInput) : Option Nat × List Action :=
  match inp.foreground with
  | some hwnd =>
    if some hwnd ≠ last_hwnd then
      let last' := some hwnd
      match get_process_id inp.pidReport with
      | some pid_value =>
        let pid := pid_value
        match inp.proc with
        | some process =>
          let exe_path := process.exe.getD "未知路径"
          let window_title :=
            (get_window_text inp.titleLen inp.titleCopied inp.titleBuf).getD "未知窗口"
          let timestamp := formatTimestamp inp.now
          (last', [Action.refresh [pid] true, Action.lookup pid,
                   Action.emit (liveEvent timestamp pid_value window_title exe_path)])
        | none =>
          let timestamp := formatTimestamp inp.now
          (last', [Action.refresh [pid] true, Action.lookup pid,
                   Action.emit (deadEvent timestamp pid_value)])
      | none => (last', [])
    else
      (last_hwnd, [])
  | none => (last_hwnd, [])

/-- One full loop iteration (main.rs lines 75-105): the body followed by the
unconditional 10 ms sleep (line 104). -/
def pollStep (last_hwnd : Option Nat) (inp : PollInput) : Option Nat × List Action :=
  let r := pollBody last_hwnd inp
  (r.1, r.2 ++ [Action.sleep 10])

/-- Run the loop over a finite sequence of poll inputs, collecting all
actions in order. -/
def runPolls (last_hwnd : Option Nat) : List PollInput → Option Nat × List Action
  | [] => (last_hwnd, [])
  | p :: ps =>
    let r := pollStep last_hwnd p
    let rest := runPolls r.1 ps
    (rest.1, r.2 ++ rest.2)

/-- The event lines among a list of actions, in order. -/
def emitted (acts : List Action) : List String :=
  acts.filterMap fun a =>
    match a with
    | Action.emit s => some s
    | _ => none

/-- The snapshot refresh calls among a list of actions, in order. -/
def refreshCalls (acts : List Action) : List (List Nat × Bool) :=
  acts.filterMap fun a =>
    match a with
    | Action.refresh pids b => some (pids, b)
    | _ => none

/-- The snapshot refresh and lookup calls among a list of actions, in order. -/
def snapshotCalls (acts : List Action) : List Action :=
  acts.filter fun a =>
    match a with
    | Action.refresh _ _ => true
    | Action.lookup _ => true
    | _ => false

/-- The sleep durations among a list of actions, in order. -/
def sleepCalls (acts : List Action) : List Nat :=
  acts.filterMap fun a =>
    match a with
    | Action.sleep ms => some ms
    | _ => none

/-! ## Branch lemmas for the loop body -/

/-- A poll with no foreground window does nothing (main.rs line 76 guard). -/
theorem pollBody_no_window (last : Option Nat) (inp : PollInput)
    (hf : inp.foreground = none) : pollBody last inp = (last, []) := by
  simp [pollBody, hf]

/-- A poll observing the handle already in `last_hwnd` does nothing
(main.rs line 77 guard). -/
theorem pollBody_same_handle (last : Option Nat) (inp : PollInput) (h : Nat)
    (hf : inp.foreground = some h) (hl : last = some h) :
    pollBody last inp = (last, []) := by
  simp [pollBody, hf, hl]

/-- A changed handle whose owning pid is unresolvable (0) still updates
`last_hwnd` but performs no snapshot call and emits nothing
(main.rs lines 78-79). -/
theorem pollBody_no_pid (last : Option Nat) (inp : PollInput) (h : Nat)
    (hf : inp.foreground = some h) (hne : some h ≠ last) (hp : inp.pidReport = 0) :
    pollBody last inp = (some h, []) := by
  simp [pollBody, hf, hne, get_process_id, hp]

/-- A changed handle with a resolvable pid whose snapshot lookup fails:
targeted refresh, lookup, then the dead-process line (main.rs lines 93-100). -/
theorem pollBody_dead (last : Option Nat) (inp : PollInput) (h : Nat)
    (hf : inp.foreground = some h) (hne : some h ≠ last)
    (hp : inp.pidReport ≠ 0) (hproc : inp.proc = none) :
    pollBody last inp =
      (some h, [Action.refresh [inp.pidReport] true, Action.lookup inp.pidReport,
        Action.emit (deadEvent (formatTimestamp inp.now) inp.pidReport)]) := by
  simp [pollBody, hf, hne, get_process_id, hp, hproc]

/-- A changed handle with a resolvable pid whose snapshot lookup succeeds:
targeted refresh, lookup, then the live line (main.rs lines 83-92). -/
theorem pollBody_live (last : Option Nat) (inp : PollInput) (h : Nat) (r : ProcessRecord)
    (hf : inp.foreground = some h) (hne : some h ≠ last)
    (hp : inp.pidReport ≠ 0) (hproc : inp.proc = some r) :
    pollBody last inp =
      (some h, [Action.refresh [inp.pidReport] true, Action.lookup inp.pidReport,
        Action.emit (liveEvent (formatTimestamp inp.now) inp.pidReport
          ((get_window_text inp.titleLen inp.titleCopied inp.titleBuf).getD "未知窗口")
          (r.exe.getD "未知路径"))]) := by
  simp [pollBody, hf, hne, get_process_id, hp, hproc]

/-- Observing a handle always leaves it in `last_hwnd`, whatever the rest
of the iteration does (main.rs line 78, or line 77 when it was already there). -/
theorem pollBody_fst (last : Option Nat) (inp : PollInput) (h : Nat)
    (hf : inp.foreground = some h) : (pollBody last inp).1 = some h := by
  by_cases hl : some h = last
  · rw [pollBody_same_handle last inp h hf hl.symm, ← hl]
  · by_cases hp : inp.pidReport = 0
    · rw [pollBody_no_pid last inp h hf hl hp]
    · cases hproc : inp.proc with
      | none => rw [pollBody_dead last inp h hf hl hp hproc]
      | some r => rw [pollBody_live last inp h r hf hl hp hproc]

theorem pollStep_fst (last : Option Nat) (inp : PollInput) :
    (pollStep last inp).1 = (pollBody last inp).1 := rfl

theorem emitted_append (a b : List Action) :
    emitted (a ++ b) = emitted a ++ emitted b :=
  List.filterMap_append a b _

/-- The trailing sleep emits nothing, so the iteration's event lines are
those of the body. -/
theorem emitted_pollStep (last : Option Nat) (inp : PollInput) :
    emitted (pollStep last inp).2 = emitted (pollBody last inp).2 := by
  show emitted ((pollBody last inp).2 ++ [Action.sleep 10]) = _
  rw [emitted_append]
  simp [emitted]

/-- Each single iteration emits at most one event line. -/
theorem emitted_pollStep_le_one (last : Option Nat) (inp : PollInput) :
    (emitted (pollStep last inp).2).length ≤ 1 := by
  rw [emitted_pollStep]
  cases hf : inp.foreground with
  | none => rw [pollBody_no_window last inp hf]; simp [emitted]
  | some h =>
    by_cases hl : some h = last
    · rw [pollBody_same_handle last inp h hf hl.symm]; simp [emitted]
    · by_cases hp : inp.pidReport = 0
      · rw [pollBody_no_pid last inp h hf hl hp]; simp [emitted]
      · cases hproc : inp.proc with
        | none => rw [pollBody_dead last inp h hf hl hp hproc]; simp [emitted]
        | some r => rw [pollBody_live last inp h r hf hl hp hproc]; simp [emitted]

/-- While every poll keeps observing the handle already in `last_hwnd`,
no iteration emits anything. -/
theorem runPolls_same_emits_nil (h : Nat) (ps : List PollInput)
    (hps : ∀ q ∈ ps, q.foreground = some h) :
    emitted (runPolls (some h) ps).2 = [] := by
  induction ps with
  | nil => rfl
  | cons p ps ih =>
    have hf : p.foreground = some h := hps p (List.mem_cons_self p ps)
    have hbody : pollBody (some h) p = (some h, []) :=
      pollBody_same_handle (some h) p h hf rfl
    have hrest : ∀ q ∈ ps, q.foreground = some h :=
      fun q hq => hps q (List.mem_cons_of_mem p hq)
    show emitted ((pollStep (some h) p).2 ++ (runPolls (pollStep (some h) p).1 ps).2) = []
    rw [emitted_append, emitted_pollStep, hbody]
    show emitted [] ++ emitted (runPolls (pollBody (some h) p).1 ps).2 = []
    rw [hbody, ih hrest]
    rfl

/-- The first element surviving `dropWhile p` does not satisfy `p`. -/
theorem head_dropWhile_false (p : Char → Bool) (l : List Char) (a : Char)
    (h : (l.dropWhile p).head? = some a) : p a = false := by
  induction l with
  | nil => simp [List.dropWhile] at h
  | cons x xs ih =>
    rw [List.dropWhile_cons] at h
    by_cases hx : p x = true
    · rw [if_pos hx] at h
      exact ih h
    · rw [if_neg hx] at h
      simp at h
      rw [← h]
      simpa using hx

/-- Trimming trailing NULs leaves no trailing NUL. -/
theorem trimEndZeros_getLast (l : List Char) :
    (trimEndZeros l).getLast? ≠ some (Char.ofNat 0) := by
  unfold trimEndZeros
  rw [List.getLast?_reverse]
  intro hlast
  have := head_dropWhile_false (fun c => c = Char.ofNat 0) l.reverse (Char.ofNat 0) hlast
  simp at this

/-- String concatenation is associative (needed to compare differently
grouped literal concatenations). -/
theorem string_append_assoc (a b c : String) : a ++ b ++ c = a ++ (b ++ c) := by
  cases a with
  | mk la =>
    cases b with
    | mk lb =>
      cases c with
      | mk lc =>
        show String.mk (la ++ lb ++ lc) = String.mk (la ++ (lb ++ lc))
        rw [List.append_assoc]

/-- The live line with the C4 round-trip values, regrouped into the single
literal the spec's schema prescribes. -/
theorem liveEvent_roundtrip (ts : String) :
    liveEvent ts 4242 "Notepad" "/bin/notepad" =
      ts ++ " | 进程ID: 4242 | 窗口标题: Notepad | 执行路径: /bin/notepad" := by
  unfold liveEvent
  simp only [string_append_assoc]
  congr 1

/-! ## The claims -/

/-- Claim C5: `get_window_text` returns none when the platform reports a
zero title length (given the platform cannot copy more characters than the
reported title length), returns none when zero characters were copied, and
on success returns exactly the decoded buffer prefix with trailing NULs
trimmed — in particular the result never ends in a terminator character. -/
theorem C5_title_resolution (lenReport copied : Nat) (buf : List Nat)
    (hcontract : copied ≤ lenReport) :
    (lenReport = 0 → get_window_text lenReport copied buf = none) ∧
    (copied = 0 → get_window_text lenReport copied buf = none) ∧
    (∀ s, get_window_text lenReport copied buf = some s →
      s = String.mk (trimEndZeros (utf16Decode (buf.take copied))) ∧
      s.data.getLast? ≠ some (Char.ofNat 0)) := by
  refine ⟨?_, ?_, ?_⟩
  · intro hlen
    have hc : copied = 0 := by omega
    simp [get_window_text, hc]
  · intro hc
    simp [get_window_text, hc]
  · intro s hs
    by_cases hc : copied = 0
    · simp [get_window_text, hc] at hs
    · simp [get_window_text, hc] at hs
      refine ⟨hs.symm, ?_⟩
      rw [← hs]
      exact trimEndZeros_getLast _

/-- Witness for C5 at concrete inputs: reported length 0 (so copied must be
0) yields none, and a successful copy of "AB" decodes and trims correctly. -/
theorem C5_title_resolution_witness :
    get_window_text 0 0 [] = none ∧
    get_window_text 2 2 [65, 66, 0] = some "AB" := by
  constructor
  · exact (C5_title_resolution 0 0 [] (Nat.le_refl 0)).1 rfl
  · have h := (C5_title_resolution 2 2 [65, 66, 0] (Nat.le_refl 2)).2.2
    cases hg : get_window_text 2 2 [65, 66, 0] with
    | none => simp [get_window_text] at hg
    | some s =>
      have h2 := (h s hg).1
      rw [h2]
      rfl

/-- Claim C6: when `get_process_id` resolves no owning pid, the iteration
emits no event line of any kind. -/
theorem C6_no_pid_no_event (last : Option Nat) (inp : PollInput)
    (hp : get_process_id inp.pidReport = none) :
    emitted (pollStep last inp).2 = [] := by
  have hp0 : inp.pidReport = 0 := by
    by_cases h0 : inp.pidReport = 0
    · exact h0
    · simp [get_process_id, h0] at hp
  rw [emitted_pollStep]
  cases hf : inp.foreground with
  | none => rw [pollBody_no_window last inp hf]; rfl
  | some h =>
    by_cases hl : some h = last
    · rw [pollBody_same_handle last inp h hf hl.symm]; rfl
    · rw [pollBody_no_pid last inp h hf hl hp0]; rfl

/-- Witness for C6: a changed handle whose owning pid reports as 0 emits
nothing. -/
theorem C6_no_pid_no_event_witness :
    emitted (pollStep (some 1)
      ⟨some 2, 0, none, 0, 0, [], ⟨2024, 1, 2, 3, 4, 5⟩⟩).2 = [] :=
  C6_no_pid_no_event (some 1) ⟨some 2, 0, none, 0, 0, [], ⟨2024, 1, 2, 3, 4, 5⟩⟩ rfl

/-- Claim C9: every iteration performs exactly one sleep, of 10 ms, and it
is the iteration's final action — independent of what the body did. -/
theorem C9_sleep_every_iteration (last : Option Nat) (inp : PollInput) :
    sleepCalls (pollStep last inp).2 = [10] ∧
    (pollStep last inp).2.getLast? = some (Action.sleep 10) := by
  constructor
  · show sleepCalls ((pollBody last inp).2 ++ [Action.sleep 10]) = [10]
    rw [show sleepCalls ((pollBody last inp).2 ++ [Action.sleep 10]) =
      sleepCalls (pollBody last inp).2 ++ sleepCalls [Action.sleep 10] from
      List.filterMap_append _ _ _]
    have hbody : sleepCalls (pollBody last inp).2 = [] := by
      cases hf : inp.foreground with
      | none => rw [pollBody_no_window last inp hf]; rfl
      | some h =>
        by_cases hl : some h = last
        · rw [pollBody_same_handle last inp h hf hl.symm]; rfl
        · by_cases hp : inp.pidReport = 0
          · rw [pollBody_no_pid last inp h hf hl hp]; rfl
          · cases hproc : inp.proc with
            | none => rw [pollBody_dead last inp h hf hl hp hproc]; rfl
            | some r => rw [pollBody_live last inp h r hf hl hp hproc]; rfl
    rw [hbody]
    rfl
  · exact List.getLast?_concat _

/-- Claim C8: the snapshot traffic of an iteration is exactly a refresh of
the single resolved pid with the remove-if-dead flag set, immediately
followed by the lookup of that same pid — and this happens precisely on
polls observing a changed handle with a resolvable pid, never when the
handle is absent, unchanged, or has no owning pid. -/
theorem C8_targeted_refresh (last : Option Nat) (inp : PollInput) :
    snapshotCalls (pollStep last inp).2 =
      (match inp.foreground with
       | none => []
       | some h =>
         if some h ≠ last ∧ inp.pidReport ≠ 0 then
           [Action.refresh [inp.pidReport] true, Action.lookup inp.pidReport]
         else []) := by
  have hstep : snapshotCalls (pollStep last inp).2 =
      snapshotCalls (pollBody last inp).2 ++ snapshotCalls [Action.sleep 10] :=
    List.filter_append _ _
  rw [show snapshotCalls [Action.sleep 10] = [] from rfl, List.append_nil] at hstep
  rw [hstep]
  cases hf : inp.foreground with
  | none => rw [pollBody_no_window last inp hf]; rfl
  | some h =>
    by_cases hl : some h = last
    · rw [pollBody_same_handle last inp h hf hl.symm]
      simp [hl, snapshotCalls]
    · by_cases hp : inp.pidReport = 0
      · rw [pollBody_no_pid last inp h hf hl hp]
        simp [hl, hp, snapshotCalls]
      · cases hproc : inp.proc with
        | none =>
          rw [pollBody_dead last inp h hf hl hp hproc]
          simp [hl, hp, snapshotCalls]
        | some r =>
          rw [pollBody_live last inp h r hf hl hp hproc]
          simp [hl, hp, snapshotCalls]

/-- Claim C1 as stated is false on the code: with `last_hwnd = some 1`, a
poll observing foreground handle 2 — which differs from `last_hwnd` — whose
owning pid resolves to 0 emits no event at all, refuting the "if" direction
of "an event is emitted iff the handle differs". -/
theorem C1_counterexample :
    ((some 2 : Option Nat) ≠ some 1) ∧
    emitted (pollStep (some 1)
      ⟨some 2, 0, none, 0, 0, [], ⟨2024, 1, 2, 3, 4, 5⟩⟩).2 = [] :=
  ⟨by decide, rfl⟩

/-- Claim C1 (amended): an event is emitted on a poll iff a foreground
handle is observed, it differs from `last_hwnd` at the moment of comparison,
and its owning pid resolves (nonzero); repeated polls observing the same
handle never re-emit. -/
theorem C1_amended (last : Option Nat) (inp : PollInput) :
    (emitted (pollStep last inp).2 ≠ [] ↔
      ∃ h, inp.foreground = some h ∧ some h ≠ last ∧ inp.pidReport ≠ 0) ∧
    (∀ h, inp.foreground = some h → last = some h →
      emitted (pollStep last inp).2 = []) := by
  constructor
  · rw [emitted_pollStep]
    cases hf : inp.foreground with
    | none =>
      rw [pollBody_no_window last inp hf]
      simp [emitted]
    | some h =>
      by_cases hl : some h = last
      · rw [pollBody_same_handle last inp h hf hl.symm]
        constructor
        · intro hcon
          exact absurd rfl hcon
        · rintro ⟨h', hf', hne', hp'⟩
          have he : h = h' := by injection hf'
          subst he
          exact absurd hl hne'
      · by_cases hp : inp.pidReport = 0
        · rw [pollBody_no_pid last inp h hf hl hp]
          simp [emitted, hp]
        · cases hproc : inp.proc with
          | none =>
            rw [pollBody_dead last inp h hf hl hp hproc]
            simp [emitted, hl, hp]
          | some r =>
            rw [pollBody_live last inp h r hf hl hp hproc]
            simp [emitted, hl, hp]
  · intro h hf hl
    rw [emitted_pollStep, pollBody_same_handle last inp h hf hl]
    rfl

/-- Witness for the amended C1: a changed handle with resolvable pid 7 does
emit. -/
theorem C1_amended_witness :
    emitted (pollStep (some 1)
      ⟨some 2, 7, none, 0, 0, [], ⟨2024, 1, 2, 3, 4, 5⟩⟩).2 ≠ [] :=
  (C1_amended (some 1) ⟨some 2, 7, none, 0, 0, [], ⟨2024, 1, 2, 3, 4, 5⟩⟩).1.mpr
    ⟨2, rfl, by decide, by decide⟩

/-- Claim C2: over a run of consecutive polls all observing the same handle,
at most one event is emitted, every poll after the first emits nothing (so
the event, if any, is at the first poll of the run), and if the handle was
already `last_hwnd` the whole run emits nothing. -/
theorem C2_run_emission (last : Option Nat) (h : Nat) (p : PollInput)
    (ps : List PollInput)
    (hp : p.foreground = some h) (hps : ∀ q ∈ ps, q.foreground = some h) :
    (emitted (runPolls last (p :: ps)).2).length ≤ 1 ∧
    emitted (runPolls (pollStep last p).1 ps).2 = [] ∧
    (last = some h → emitted (runPolls last (p :: ps)).2 = []) := by
  have hfst : (pollStep last p).1 = some h := by
    rw [pollStep_fst]; exact pollBody_fst last p h hp
  have htail : emitted (runPolls (pollStep last p).1 ps).2 = [] := by
    rw [hfst]; exact runPolls_same_emits_nil h ps hps
  have hsplit : emitted (runPolls last (p :: ps)).2 =
      emitted (pollStep last p).2 ++ emitted (runPolls (pollStep last p).1 ps).2 := by
    show emitted ((pollStep last p).2 ++ (runPolls (pollStep last p).1 ps).2) = _
    exact emitted_append _ _
  refine ⟨?_, htail, ?_⟩
  · rw [hsplit, htail, List.append_nil]
    exact emitted_pollStep_le_one last p
  · intro hl
    rw [hsplit, htail, List.append_nil, emitted_pollStep,
      pollBody_same_handle last p h hp hl]
    rfl

/-- Witness for C2: a two-poll run on handle 5 starting from `last_hwnd =
none` emits at most once, with the tail poll emitting nothing. -/
theorem C2_run_emission_witness :
    (emitted (runPolls none
      [⟨some 5, 9, none, 0, 0, [], ⟨2024, 1, 2, 3, 4, 5⟩⟩,
       ⟨some 5, 9, some ⟨none⟩, 0, 0, [], ⟨2024, 1, 2, 3, 4, 5⟩⟩]).2).length ≤ 1 ∧
    emitted (runPolls
      (pollStep none ⟨some 5, 9, none, 0, 0, [], ⟨2024, 1, 2, 3, 4, 5⟩⟩).1
      [⟨some 5, 9, some ⟨none⟩, 0, 0, [], ⟨2024, 1, 2, 3, 4, 5⟩⟩]).2 = [] ∧
    ((none : Option Nat) = some 5 →
      emitted (runPolls none
        [⟨some 5, 9, none, 0, 0, [], ⟨2024, 1, 2, 3, 4, 5⟩⟩,
         ⟨some 5, 9, some ⟨none⟩, 0, 0, [], ⟨2024, 1, 2, 3, 4, 5⟩⟩]).2 = []) :=
  C2_run_emission none 5 ⟨some 5, 9, none, 0, 0, [], ⟨2024, 1, 2, 3, 4, 5⟩⟩
    [⟨some 5, 9, some ⟨none⟩, 0, 0, [], ⟨2024, 1, 2, 3, 4, 5⟩⟩] rfl (by decide)

/-- Claim C3: on a changed handle whose pid resolves but whose snapshot
lookup fails, the single emitted line is exactly the dead-process variant,
holding only the timestamp and the pid. -/
theorem C3_dead_event (last : Option Nat) (inp : PollInput) (h : Nat)
    (hf : inp.foreground = some h) (hne : some h ≠ last)
    (hp : inp.pidReport ≠ 0) (hproc : inp.proc = none) :
    emitted (pollStep last inp).2 =
      [formatTimestamp inp.now ++ " | 进程ID: " ++ toString inp.pidReport ++
        " 不存在或已结束"] := by
  rw [emitted_pollStep, pollBody_dead last inp h hf hne hp hproc]
  rfl

/-- Witness for C3 at pid 7 and a concrete clock. -/
theorem C3_dead_event_witness :
    emitted (pollStep none
      ⟨some 3, 7, none, 0, 0, [], ⟨2024, 1, 2, 3, 4, 5⟩⟩).2 =
      ["2024-01-02 03:04:05 | 进程ID: 7 不存在或已结束"] := by
  rw [C3_dead_event none ⟨some 3, 7, none, 0, 0, [], ⟨2024, 1, 2, 3, 4, 5⟩⟩ 3
    rfl (by decide) (by decide) rfl]
  rfl

/-- Claim C4: round-trip — a changed handle whose pid resolves to 4242,
whose snapshot record carries path "/bin/notepad", and whose title resolves
to "Notepad" emits exactly the live-event schema line; the timestamp format
is `YYYY-MM-DD HH:MM:SS` (pinned at a sample time). -/
theorem C4_round_trip (last : Option Nat) (inp : PollInput) (h : Nat)
    (hf : inp.foreground = some h) (hne : some h ≠ last)
    (hp : inp.pidReport = 4242)
    (hproc : inp.proc = some ⟨some "/bin/notepad"⟩)
    (ht : get_window_text inp.titleLen inp.titleCopied inp.titleBuf =
      some "Notepad") :
    emitted (pollStep last inp).2 =
      [formatTimestamp inp.now ++
        " | 进程ID: 4242 | 窗口标题: Notepad | 执行路径: /bin/notepad"] ∧
    formatTimestamp ⟨2024, 1, 2, 3, 4, 5⟩ = "2024-01-02 03:04:05" := by
  constructor
  · have hp' : inp.pidReport ≠ 0 := by rw [hp]; decide
    rw [emitted_pollStep,
      pollBody_live last inp h ⟨some "/bin/notepad"⟩ hf hne hp' hproc]
    show [liveEvent (formatTimestamp inp.now) inp.pidReport
      ((get_window_text inp.titleLen inp.titleCopied inp.titleBuf).getD "未知窗口")
      (Option.getD (some "/bin/notepad") "未知路径")] = _
    rw [ht, hp]
    show [liveEvent (formatTimestamp inp.now) 4242 "Notepad" "/bin/notepad"] = _
    rw [liveEvent_roundtrip]
  · rfl

/-- Witness for C4: a fully concrete poll, with the title buffer holding the
UTF-16 code units of "Notepad". -/
theorem C4_round_trip_witness :
    emitted (pollStep none
      ⟨some 9, 4242, some ⟨some "/bin/notepad"⟩, 7, 7,
        [78, 111, 116, 101, 112, 97, 100], ⟨2024, 1, 2, 3, 4, 5⟩⟩).2 =
      ["2024-01-02 03:04:05 | 进程ID: 4242 | 窗口标题: Notepad | 执行路径: /bin/notepad"] := by
  rw [(C4_round_trip none
    ⟨some 9, 4242, some ⟨some "/bin/notepad"⟩, 7, 7,
      [78, 111, 116, 101, 112, 97, 100], ⟨2024, 1, 2, 3, 4, 5⟩⟩ 9
    rfl (by decide) rfl rfl rfl).1]
  rfl

/-- Claim C7: on a live-process event whose title resolution failed, the
title field is exactly the placeholder "未知窗口"; an unavailable executable
path likewise yields the placeholder "未知路径". -/
theorem C7_placeholders (last : Option Nat) (inp : PollInput) (h : Nat)
    (r : ProcessRecord)
    (hf : inp.foreground = some h) (hne : some h ≠ last)
    (hp : inp.pidReport ≠ 0) (hproc : inp.proc = some r)
    (ht : get_window_text inp.titleLen inp.titleCopied inp.titleBuf = none) :
    emitted (pollStep last inp).2 =
      [liveEvent (formatTimestamp inp.now) inp.pidReport "未知窗口"
        (r.exe.getD "未知路径")] ∧
    (r.exe = none →
      emitted (pollStep last inp).2 =
        [liveEvent (formatTimestamp inp.now) inp.pidReport "未知窗口" "未知路径"]) := by
  have hmain : emitted (pollStep last inp).2 =
      [liveEvent (formatTimestamp inp.now) inp.pidReport "未知窗口"
        (r.exe.getD "未知路径")] := by
    rw [emitted_pollStep, pollBody_live last inp h r hf hne hp hproc, ht]
    rfl
  refine ⟨hmain, fun hexe => ?_⟩
  rw [hmain, hexe]
  rfl

/-- Witness for C7: title resolution fails (zero characters copied) and the
record has no path, so both placeholders appear in the emitted line. -/
theorem C7_placeholders_witness :
    emitted (pollStep none
      ⟨some 4, 8, some ⟨none⟩, 0, 0, [], ⟨2024, 1, 2, 3, 4, 5⟩⟩).2 =
      ["2024-01-02 03:04:05 | 进程ID: 8 | 窗口标题: 未知窗口 | 执行路径: 未知路径"] := by
  rw [(C7_placeholders none ⟨some 4, 8, some ⟨none⟩, 0, 0, [], ⟨2024, 1, 2, 3, 4, 5⟩⟩
    4 ⟨none⟩ rfl (by decide) (by decide) rfl rfl).2 rfl]
  rfl

/-- Claim C10: a changed handle whose pid is unresolvable still updates
`last_hwnd` (main.rs line 78 precedes the pid check on line 79), emits
nothing, and no later poll observing that same handle ever emits. -/
theorem C10_last_updated_without_pid (last : Option Nat) (inp : PollInput)
    (h : Nat) (ps : List PollInput)
    (hf : inp.foreground = some h) (hne : some h ≠ last)
    (hp : inp.pidReport = 0) (hps : ∀ q ∈ ps, q.foreground = some h) :
    (pollStep last inp).1 = some h ∧
    emitted (pollStep last inp).2 = [] ∧
    emitted (runPolls (pollStep last inp).1 ps).2 = [] := by
  have hbody := pollBody_no_pid last inp h hf hne hp
  have h1 : (pollStep last inp).1 = some h := by rw [pollStep_fst, hbody]
  refine ⟨h1, ?_, ?_⟩
  · rw [emitted_pollStep, hbody]
    rfl
  · rw [h1]; exact runPolls_same_emits_nil h ps hps

/-- Witness for C10: handle 6 arrives with pid 0, then arrives again with a
perfectly resolvable pid 9 — and still nothing is emitted, because
`last_hwnd` was already updated. -/
theorem C10_last_updated_without_pid_witness :
    (pollStep none ⟨some 6, 0, none, 0, 0, [], ⟨2024, 1, 2, 3, 4, 5⟩⟩).1 = some 6 ∧
    emitted (pollStep none
      ⟨some 6, 0, none, 0, 0, [], ⟨2024, 1, 2, 3, 4, 5⟩⟩).2 = [] ∧
    emitted (runPolls
      (pollStep none ⟨some 6, 0, none, 0, 0, [], ⟨2024, 1, 2, 3, 4, 5⟩⟩).1
      [⟨some 6, 9, some ⟨some "/bin/a"⟩, 0, 0, [], ⟨2024, 1, 2, 3, 4, 5⟩⟩]).2 = [] :=
  C10_last_updated_without_pid none
    ⟨some 6, 0, none, 0, 0, [], ⟨2024, 1, 2, 3, 4, 5⟩⟩ 6
    [⟨some 6, 9, some ⟨some "/bin/a"⟩, 0, 0, [], ⟨2024, 1, 2, 3, 4, 5⟩⟩]
    rfl (by decide) rfl (by decide)

end ForegroundWatcher
